import Mathlib

/-!
# Book Catalog API — formal model

Shallow embedding of `src/restapi_106.py`, a FastAPI CRUD service for a
book catalog. The catalog is a Python dict from integer id to a book
record (here: an insertion-ordered association list with unique keys),
together with a global id counter `next_book_id`.

Stored record fields are `Option`-valued: the PUT handler dumps its
`BookUpdate` model with `exclude_unset=True`, so a field explicitly
supplied as JSON `null` is written into the stored dict as Python `None`.
Comparisons mirror Python `==` (where `None == x` is `False` unless both
are `None`), and `str.lower()` is modelled by `String.toLower` (the
concrete values used here are ASCII, where the two agree).
-/

namespace BookCatalog

/-- A stored book record: the value part of an entry of `books_db`.
Every field is `Option`-valued because a PUT with an explicit `null`
stores Python `None` in that slot. -/
structure StoredBook where
  title : Option String
  author : Option String
  isbn : Option String
  publication_year : Option Int
  genre : Option String
  available : Option Bool
deriving DecidableEq, Repr

/-- The pydantic `Book` request model: all fields required (after
framework validation, `available` defaulted to `true` when absent). -/
structure Book where
  title : String
  author : String
  isbn : String
  publication_year : Int
  genre : String
  available : Bool
deriving DecidableEq, Repr

/-- `Book.model_dump()`: the dict stored into `books_db` on create. -/
def Book.model_dump (b : Book) : StoredBook :=
  ⟨some b.title, some b.author, some b.isbn,
   some b.publication_year, some b.genre, some b.available⟩

/-- The pydantic `BookUpdate` request model together with the unset
information used by `model_dump(exclude_unset=True)`: the outer `Option`
records whether the field occurred in the request body at all, the inner
`Option` is the supplied JSON value (`none` = explicit `null`). -/
structure BookUpdate where
  title : Option (Option String)
  author : Option (Option String)
  isbn : Option (Option String)
  publication_year : Option (Option Int)
  genre : Option (Option String)
  available : Option (Option Bool)
deriving DecidableEq, Repr

/-- The in-memory database: dict from id to record, as an
insertion-ordered association list. -/
abbrev BooksDb := List (Nat × StoredBook)

/-- The whole process-wide mutable state: `books_db` and `next_book_id`. -/
structure CatalogState where
  books_db : BooksDb
  next_book_id : Nat
deriving DecidableEq, Repr

/-! ## Python dict primitives on the association list -/

/-- `db[k]` lookup (`None` when absent): first entry with key `k`. -/
def dictGet? : BooksDb → Nat → Option StoredBook
  | [], _ => none
  | p :: rest, k => if p.1 = k then some p.2 else dictGet? rest k

/-- `db[k] = v`: replace the value at an existing key in place, or
append a fresh entry at the end (Python dicts keep insertion order). -/
def dictSet : BooksDb → Nat → StoredBook → BooksDb
  | [], k, v => [(k, v)]
  | p :: rest, k, v => if p.1 = k then (k, v) :: rest else p :: dictSet rest k v

/-- `del db[k]`: remove the entry with key `k` (the first one; keys are
unique in every reachable state). -/
def dictDel : BooksDb → Nat → BooksDb
  | [], _ => []
  | p :: rest, k => if p.1 = k then rest else p :: dictDel rest k

/-! ## Error and response shapes -/

/-- `fastapi.HTTPException`: status code and human-readable detail. -/
structure HTTPError where
  status_code : Nat
  detail : String
deriving DecidableEq, Repr

/-- An uncaught Python exception (no HTTP contract): raised by
`v["genre"].lower()` when the stored genre slot holds `None`. -/
inductive PyError where
  | attributeError
deriving DecidableEq, Repr

/-- A book representation in a response: its stored fields plus its id. -/
structure BookOut where
  id : Nat
  data : StoredBook
deriving DecidableEq, Repr

/-- Response body of `GET /books`. -/
inductive ListResponse where
  /-- `{"message": ..., "books": []}` returned on an empty catalog. -/
  | noBooks (message : String) (books : List BookOut)
  /-- `{"total_books": ..., "books": [...]}`. -/
  | listing (total_books : Nat) (books : List BookOut)
deriving DecidableEq, Repr

/-- Response body of `POST /books` / `PUT /books/{id}`. -/
structure MessageBook where
  message : String
  book : BookOut
deriving DecidableEq, Repr

/-- Response body of `DELETE /books/{id}`. -/
structure DeleteResponse where
  message : String
  deleted_book : BookOut
deriving DecidableEq, Repr

/-- Python `str(x)` on an optional string (`None` prints as "None"),
used in the f-string of the PUT conflict detail. -/
def pyStr : Option String → String
  | none => "None"
  | some s => s

/-- Python `str.lower()`, character by character (all concrete strings in
this development are ASCII, where this agrees with Python). -/
def pyLower (s : String) : String := ⟨s.data.map Char.toLower⟩

/-! ## The five handlers -/

/-- The dict comprehension of the genre filter: keeps entries whose
`genre.lower()` equals the (pre-lowered) query value, and raises
`AttributeError` if any inspected genre slot holds `None`. -/
def genreFilterLoop (gl : String) : BooksDb → Except PyError BooksDb
  | [] => .ok []
  | p :: rest =>
    match p.2.genre with
    | none => .error .attributeError
    | some gv => do
      let tail ← genreFilterLoop gl rest
      if pyLower gv = gl then pure (p :: tail) else pure tail

/-- `GET /books` (`get_all_books`): optional `genre` and `available`
query parameters. Note `if genre:` — Python truthiness, so an empty
genre string is treated like an absent parameter. -/
def get_all_books (genre : Option String) (available : Option Bool)
    (s : CatalogState) : Except PyError (Nat × ListResponse) :=
  if s.books_db.isEmpty then .ok (200, .noBooks "No books in catalog" [])
  else do
    let fb := s.books_db
    let fb ← match genre with
      | none => pure fb
      | some g => if g = "" then pure fb else genreFilterLoop (pyLower g) fb
    let fb := match available with
      | none => fb
      | some a => fb.filter (fun p => p.2.available = some a)
    let result := fb.map (fun p => BookOut.mk p.1 p.2)
    pure (200, .listing result.length result)

/-- `GET /books/{book_id}` (`get_book`). -/
def get_book (book_id : Nat) (s : CatalogState) :
    Except HTTPError (Nat × BookOut) :=
  match dictGet? s.books_db book_id with
  | none => .error ⟨404, "Book with ID " ++ toString book_id ++ " not found"⟩
  | some b => .ok (200, ⟨book_id, b⟩)

/-- `POST /books` (`create_book`): 400 if some stored isbn equals the
payload's isbn, otherwise store `book.model_dump()` under the current
counter value and increment the counter. -/
def create_book (book : Book) (s : CatalogState) :
    Except HTTPError (Nat × MessageBook × CatalogState) :=
  if s.books_db.any (fun p => p.2.isbn = some book.isbn) then
    .error ⟨400, "Book with ISBN " ++ book.isbn ++ " already exists"⟩
  else
    let book_id := s.next_book_id
    let db' := dictSet s.books_db book_id book.model_dump
    .ok (201, ⟨"Book created successfully", ⟨book_id, book.model_dump⟩⟩,
         ⟨db', s.next_book_id + 1⟩)

/-- `books_db[book_id].update(update_data)` with
`update_data = book_update.model_dump(exclude_unset=True)`: every field
that occurred in the body (outer `some`) overwrites the stored slot,
explicit `null` included; absent fields are untouched. -/
def applyUpdate (b : StoredBook) (u : BookUpdate) : StoredBook :=
  ⟨u.title.getD b.title, u.author.getD b.author, u.isbn.getD b.isbn,
   u.publication_year.getD b.publication_year, u.genre.getD b.genre,
   u.available.getD b.available⟩

/-- `PUT /books/{book_id}` (`update_book`): 404 if the id is absent;
then, if `isbn` occurs in the body, 400 if a different id holds an equal
isbn value; otherwise merge the supplied fields into the stored record. -/
def update_book (book_id : Nat) (u : BookUpdate) (s : CatalogState) :
    Except HTTPError (Nat × MessageBook × CatalogState) :=
  match dictGet? s.books_db book_id with
  | none => .error ⟨404, "Book with ID " ++ toString book_id ++ " not found"⟩
  | some bdata =>
    match u.isbn with
    | some newIsbn =>
      if s.books_db.any (fun p => p.1 ≠ book_id ∧ p.2.isbn = newIsbn) then
        .error ⟨400, "ISBN " ++ pyStr newIsbn ++ " already exists for another book"⟩
      else
        let merged := applyUpdate bdata u
        .ok (200, ⟨"Book updated successfully", ⟨book_id, merged⟩⟩,
             ⟨dictSet s.books_db book_id merged, s.next_book_id⟩)
    | none =>
      let merged := applyUpdate bdata u
      .ok (200, ⟨"Book updated successfully", ⟨book_id, merged⟩⟩,
           ⟨dictSet s.books_db book_id merged, s.next_book_id⟩)

/-- `DELETE /books/{book_id}` (`delete_book`). -/
def delete_book (book_id : Nat) (s : CatalogState) :
    Except HTTPError (Nat × DeleteResponse × CatalogState) :=
  match dictGet? s.books_db book_id with
  | none => .error ⟨404, "Book with ID " ++ toString book_id ++ " not found"⟩
  | some b =>
    .ok (200, ⟨"Book deleted successfully", ⟨book_id, b⟩⟩,
         ⟨dictDel s.books_db book_id, s.next_book_id⟩)

/-! ## Seeded initial state and reachability -/

/-- Seed record with id 1. -/
def seedBook1 : StoredBook :=
  ⟨some "To Kill a Mockingbird", some "Harper Lee", some "978-0-06-112008-4",
   some 1960, some "Fiction", some true⟩

/-- Seed record with id 2. -/
def seedBook2 : StoredBook :=
  ⟨some "1984", some "George Orwell", some "978-0-452-28423-4",
   some 1949, some "Dystopian", some true⟩

/-- The module-level state at process start: two seed books, counter 3. -/
def initialState : CatalogState := ⟨[(1, seedBook1), (2, seedBook2)], 3⟩

/-- One client request. -/
inductive Op where
  | create (b : Book)
  | update (id : Nat) (u : BookUpdate)
  | delete (id : Nat)
  | getOne (id : Nat)
  | list (g : Option String) (a : Option Bool)

/-- Effect of a request on the process state. A raised exception aborts
the handler before any store mutation, so on an error the state is
unchanged; the GET handlers never assign to `books_db` or the counter. -/
def stepOp (op : Op) (s : CatalogState) : CatalogState :=
  match op with
  | .create b =>
    match create_book b s with
    | .ok (_, _, s') => s'
    | .error _ => s
  | .update id u =>
    match update_book id u s with
    | .ok (_, _, s') => s'
    | .error _ => s
  | .delete id =>
    match delete_book id s with
    | .ok (_, _, s') => s'
    | .error _ => s
  | .getOne _ => s
  | .list _ _ => s

/-- States reachable from the seeded initial state by any sequence of
requests. -/
inductive Reachable : CatalogState → Prop where
  | init : Reachable initialState
  | next : ∀ s op, Reachable s → Reachable (stepOp op s)

/-- `ReachableFrom s s'`: `s'` arises from `s` by some (possibly empty)
sequence of requests. -/
inductive ReachableFrom : CatalogState → CatalogState → Prop where
  | refl : ∀ s, ReachableFrom s s
  | next : ∀ s s' op, ReachableFrom s s' → ReachableFrom s (stepOp op s')

/-! ## Well-formedness invariant -/

/-- No two entries of the dict share a key. -/
def KeysOk (db : BooksDb) : Prop :=
  List.Pairwise (fun p q => p.1 ≠ q.1) db

/-- No two stored records share an isbn value (Python `None` included). -/
def IsbnsOk (db : BooksDb) : Prop :=
  List.Pairwise (fun p q => p.2.isbn ≠ q.2.isbn) db

/-- Every key is below the id counter. -/
def CounterOk (s : CatalogState) : Prop :=
  ∀ p ∈ s.books_db, p.1 < s.next_book_id

/-- The state invariant maintained by every handler. -/
def WF (s : CatalogState) : Prop :=
  KeysOk s.books_db ∧ IsbnsOk s.books_db ∧ CounterOk s

instance : DecidablePred KeysOk := fun db =>
  inferInstanceAs (Decidable (List.Pairwise _ db))

instance : DecidablePred IsbnsOk := fun db =>
  inferInstanceAs (Decidable (List.Pairwise _ db))

/-- A fresh valid payload used to exercise the handlers on the seeded
catalog. -/
def sampleBook : Book :=
  ⟨"Dune", "Frank Herbert", "978-0-441-17271-9", 1965, "Science Fiction", true⟩

/-- A payload reusing the isbn of seed book 1. -/
def dupBook : Book :=
  ⟨"Mockingbird Copy", "Someone Else", "978-0-06-112008-4", 2001, "Fiction", false⟩

/-- A body updating only `available` (to `false`). -/
def availOnlyUpdate : BookUpdate :=
  ⟨none, none, none, none, none, some (some false)⟩

/-- A body explicitly nulling `title`, `publication_year` and `available`,
leaving the other fields absent. -/
def nullingUpdate : BookUpdate :=
  ⟨some none, none, none, some none, none, some none⟩

theorem dictGet?_dictSet_self (db : BooksDb) (k : Nat) (v : StoredBook) :
    dictGet? (dictSet db k v) k = some v := by
  induction db with
  | nil => simp [dictSet, dictGet?]
  | cons p rest ih =>
    by_cases h : p.1 = k
    · simp [dictSet, dictGet?, h]
    · simp [dictSet, dictGet?, h, ih]

theorem dictGet?_dictSet_other (db : BooksDb) (k k' : Nat) (v : StoredBook)
    (h : k' ≠ k) : dictGet? (dictSet db k v) k' = dictGet? db k' := by
  induction db with
  | nil =>
    simp only [dictSet, dictGet?]
    rw [if_neg (fun h' => h h'.symm)]
  | cons p rest ih =>
    by_cases hp : p.1 = k
    · subst hp
      simp only [dictSet, if_pos rfl, dictGet?]
      rw [if_neg (fun h' => h h'.symm), if_neg (fun h' => h h'.symm)]
    · simp only [dictSet, if_neg hp, dictGet?]
      by_cases hp' : p.1 = k'
      · rw [if_pos hp', if_pos hp']
      · rw [if_neg hp', if_neg hp', ih]

theorem mem_dictSet (db : BooksDb) (k : Nat) (v : StoredBook) (q : Nat × StoredBook)
    (h : q ∈ dictSet db k v) : q = (k, v) ∨ q ∈ db := by
  induction db with
  | nil =>
    rw [dictSet] at h
    exact .inl (List.mem_singleton.1 h)
  | cons p rest ih =>
    by_cases hp : p.1 = k
    · rw [dictSet, if_pos hp] at h
      rcases List.mem_cons.1 h with h' | h'
      · exact .inl h'
      · exact .inr (List.mem_cons_of_mem _ h')
    · rw [dictSet, if_neg hp] at h
      rcases List.mem_cons.1 h with h' | h'
      · exact .inr (h' ▸ List.mem_cons_self p rest)
      · rcases ih h' with h'' | h''
        · exact .inl h''
        · exact .inr (List.mem_cons_of_mem _ h'')

theorem dictSet_absent (db : BooksDb) (k : Nat) (v : StoredBook)
    (h : ∀ p ∈ db, p.1 ≠ k) : dictSet db k v = db ++ [(k, v)] := by
  induction db with
  | nil => simp [dictSet]
  | cons p rest ih =>
    have hp : p.1 ≠ k := h p (List.mem_cons_self p rest)
    simp only [dictSet, if_neg hp, List.cons_append, List.cons.injEq, true_and]
    exact ih (fun q hq => h q (List.mem_cons_of_mem _ hq))

theorem dictGet?_mem (db : BooksDb) (k : Nat) (b : StoredBook)
    (h : dictGet? db k = some b) : (k, b) ∈ db := by
  induction db with
  | nil => simp [dictGet?] at h
  | cons p rest ih =>
    by_cases hp : p.1 = k
    · rw [dictGet?, if_pos hp] at h
      exact List.mem_cons.2 (Or.inl (by rw [← hp, ← Option.some.inj h]))
    · rw [dictGet?, if_neg hp] at h
      exact List.mem_cons_of_mem _ (ih h)

theorem dictGet?_eq_none (db : BooksDb) (k : Nat)
    (h : dictGet? db k = none) : ∀ p ∈ db, p.1 ≠ k := by
  induction db with
  | nil => simp
  | cons p rest ih =>
    by_cases hp : p.1 = k
    · simp [dictGet?, hp] at h
    · simp [dictGet?, hp] at h
      intro q hq
      rcases List.mem_cons.1 hq with rfl | hq'
      · exact hp
      · exact ih h q hq'

theorem dictGet?_isSome_of_mem (db : BooksDb) (q : Nat × StoredBook)
    (h : q ∈ db) : dictGet? db q.1 ≠ none := by
  induction db with
  | nil => simp at h
  | cons p rest ih =>
    rcases List.mem_cons.1 h with rfl | hq
    · simp [dictGet?]
    · by_cases hp : p.1 = q.1
      · simp [dictGet?, hp]
      · simp [dictGet?, hp]
        exact ih hq

theorem keysOk_dictSet (db : BooksDb) (k : Nat) (v : StoredBook)
    (hK : KeysOk db) : KeysOk (dictSet db k v) := by
  induction db with
  | nil => simp [dictSet, KeysOk]
  | cons p rest ih =>
    rw [KeysOk, List.pairwise_cons] at hK
    by_cases hp : p.1 = k
    · subst hp
      rw [KeysOk, dictSet, if_pos rfl, List.pairwise_cons]
      exact ⟨hK.1, hK.2⟩
    · rw [KeysOk, dictSet, if_neg hp, List.pairwise_cons]
      refine ⟨?_, ih hK.2⟩
      intro q hq
      rcases mem_dictSet rest k v q hq with rfl | hq'
      · exact hp
      · exact hK.1 q hq'

theorem isbnsOk_dictSet (db : BooksDb) (k : Nat) (v : StoredBook)
    (hK : KeysOk db) (hI : IsbnsOk db)
    (hv : ∀ p ∈ db, p.1 ≠ k → p.2.isbn ≠ v.isbn) :
    IsbnsOk (dictSet db k v) := by
  induction db with
  | nil => simp [dictSet, IsbnsOk]
  | cons p rest ih =>
    rw [KeysOk, List.pairwise_cons] at hK
    rw [IsbnsOk, List.pairwise_cons] at hI
    by_cases hp : p.1 = k
    · subst hp
      rw [IsbnsOk, dictSet, if_pos rfl, List.pairwise_cons]
      refine ⟨?_, hI.2⟩
      intro q hq
      have hqk : q.1 ≠ p.1 := fun h => (hK.1 q hq) h.symm
      exact fun h => hv q (List.mem_cons_of_mem _ hq) hqk h.symm
    · rw [IsbnsOk, dictSet, if_neg hp, List.pairwise_cons]
      refine ⟨?_, ih hK.2 hI.2 (fun q hq hqk => hv q (List.mem_cons_of_mem _ hq) hqk)⟩
      intro q hq
      rcases mem_dictSet rest k v q hq with rfl | hq'
      · exact hv p (List.mem_cons_self p rest) hp
      · exact hI.1 q hq'

theorem dictDel_sublist (db : BooksDb) (k : Nat) :
    List.Sublist (dictDel db k) db := by
  induction db with
  | nil => simp [dictDel]
  | cons p rest ih =>
    by_cases hp : p.1 = k
    · rw [dictDel, if_pos hp]
      exact List.sublist_cons_self p rest
    · rw [dictDel, if_neg hp]
      exact List.Sublist.cons₂ p ih

theorem dictGet?_dictDel_self (db : BooksDb) (k : Nat) (hK : KeysOk db) :
    dictGet? (dictDel db k) k = none := by
  induction db with
  | nil => simp [dictDel, dictGet?]
  | cons p rest ih =>
    rw [KeysOk, List.pairwise_cons] at hK
    by_cases hp : p.1 = k
    · rw [dictDel, if_pos hp]
      subst hp
      cases h : dictGet? rest p.1 with
      | none => rfl
      | some b => exact absurd rfl (hK.1 (p.1, b) (dictGet?_mem rest p.1 b h))
    · rw [dictDel, if_neg hp, dictGet?, if_neg hp]
      exact ih hK.2

theorem dictGet?_dictDel_other (db : BooksDb) (k k' : Nat) (h : k' ≠ k) :
    dictGet? (dictDel db k) k' = dictGet? db k' := by
  induction db with
  | nil => simp [dictDel]
  | cons p rest ih =>
    by_cases hp : p.1 = k
    · rw [dictDel, if_pos hp, dictGet?, if_neg (hp ▸ fun h' => h h'.symm)]
    · by_cases hp' : p.1 = k'
      · rw [dictDel, if_neg hp, dictGet?, if_pos hp', dictGet?, if_pos hp']
      · rw [dictDel, if_neg hp, dictGet?, if_neg hp', dictGet?, if_neg hp', ih]

theorem dictDel_length (db : BooksDb) (k : Nat) (b : StoredBook)
    (h : dictGet? db k = some b) :
    (dictDel db k).length + 1 = db.length := by
  induction db with
  | nil => simp [dictGet?] at h
  | cons p rest ih =>
    by_cases hp : p.1 = k
    · rw [dictDel, if_pos hp]
      simp
    · rw [dictGet?, if_neg hp] at h
      rw [dictDel, if_neg hp]
      simp only [List.length_cons]
      rw [← ih h]

/-! ## Invariant preservation -/

theorem isbn_distinct_of_isbnsOk (db : BooksDb)
    (hI : IsbnsOk db) (k : Nat) (b : StoredBook)
    (hb : dictGet? db k = some b) :
    ∀ p ∈ db, p.1 ≠ k → p.2.isbn ≠ b.isbn := by
  intro p hp hpk
  have hkb : (k, b) ∈ db := dictGet?_mem db k b hb
  have hne : p ≠ (k, b) := fun h => hpk (by rw [h])
  have hsym : Symmetric (fun p q : Nat × StoredBook => p.2.isbn ≠ q.2.isbn) :=
    fun _ _ h h' => h h'.symm
  exact hI.forall hsym hp hkb hne

theorem wf_create (b : Book) (s : CatalogState) (r : Nat × MessageBook × CatalogState)
    (hWF : WF s) (h : create_book b s = .ok r) : WF r.2.2 := by
  rw [create_book] at h
  by_cases hc : s.books_db.any (fun p => p.2.isbn = some b.isbn)
  · rw [if_pos hc] at h
    exact absurd h (by simp)
  · rw [if_neg hc] at h
    have hc' : ∀ p ∈ s.books_db, ¬(p.2.isbn = some b.isbn) := by
      intro p hp
      have := (List.any_eq_true.not.1 hc)
      push_neg at this
      have h2 := this p hp
      simpa using h2
    obtain ⟨hK, hI, hCnt⟩ := hWF
    cases h
    refine ⟨keysOk_dictSet _ _ _ hK, ?_, ?_⟩
    · exact isbnsOk_dictSet _ _ _ hK hI (fun p hp _ => hc' p hp)
    · intro q hq
      rcases mem_dictSet _ _ _ q hq with rfl | hq'
      · exact Nat.lt_succ_self _
      · exact Nat.lt_trans (hCnt q hq') (Nat.lt_succ_self _)

theorem wf_update (id : Nat) (u : BookUpdate) (s : CatalogState)
    (r : Nat × MessageBook × CatalogState)
    (hWF : WF s) (h : update_book id u s = .ok r) : WF r.2.2 := by
  obtain ⟨hK, hI, hCnt⟩ := hWF
  cases hb : dictGet? s.books_db id with
  | none =>
    rw [update_book, hb] at h
    exact absurd h (by simp)
  | some bdata =>
    have hid : (id, bdata) ∈ s.books_db := dictGet?_mem _ _ _ hb
    have hcnt' : ∀ m, ∀ q ∈ dictSet s.books_db id m, q.1 < s.next_book_id := by
      intro m q hq
      rcases mem_dictSet _ _ _ q hq with rfl | hq'
      · exact hCnt (id, bdata) hid
      · exact hCnt q hq'
    cases hu : u.isbn with
    | some newIsbn =>
      by_cases hc : s.books_db.any (fun p => p.1 ≠ id ∧ p.2.isbn = newIsbn)
      · simp only [update_book, hb, hu, hc, if_true] at h
        exact absurd h (by simp)
      · simp only [update_book, hb, hu] at h
        rw [if_neg (by exact fun hcc => hc hcc)] at h
        have hc' : ∀ p ∈ s.books_db, p.1 ≠ id → p.2.isbn ≠ newIsbn := by
          intro p hp hpk hbad
          exact hc (List.any_eq_true.2 ⟨p, hp, by simp [hpk, hbad]⟩)
        cases h
        refine ⟨keysOk_dictSet _ _ _ hK, ?_, hcnt' _⟩
        refine isbnsOk_dictSet _ _ _ hK hI ?_
        intro p hp hpk
        have hmi : (applyUpdate bdata u).isbn = newIsbn := by
          simp [applyUpdate, hu]
        rw [hmi]
        exact hc' p hp hpk
    | none =>
      simp only [update_book, hb, hu] at h
      cases h
      refine ⟨keysOk_dictSet _ _ _ hK, ?_, hcnt' _⟩
      refine isbnsOk_dictSet _ _ _ hK hI ?_
      intro p hp hpk
      have hmi : (applyUpdate bdata u).isbn = bdata.isbn := by
        simp [applyUpdate, hu]
      rw [hmi]
      exact isbn_distinct_of_isbnsOk _ hI id bdata hb p hp hpk

theorem wf_delete (id : Nat) (s : CatalogState)
    (r : Nat × DeleteResponse × CatalogState)
    (hWF : WF s) (h : delete_book id s = .ok r) : WF r.2.2 := by
  obtain ⟨hK, hI, hCnt⟩ := hWF
  rw [delete_book] at h
  cases hb : dictGet? s.books_db id with
  | none => rw [hb] at h; exact absurd h (by simp)
  | some bdata =>
    rw [hb] at h
    cases h
    have hsub := dictDel_sublist s.books_db id
    exact ⟨List.Pairwise.sublist hsub hK, List.Pairwise.sublist hsub hI,
      fun q hq => hCnt q (List.Sublist.subset hsub hq)⟩

theorem wf_step (op : Op) (s : CatalogState) (hWF : WF s) : WF (stepOp op s) := by
  cases op with
  | create b =>
    rw [stepOp]
    cases h : create_book b s with
    | ok r => exact wf_create b s r hWF h
    | error e => exact hWF
  | update id u =>
    rw [stepOp]
    cases h : update_book id u s with
    | ok r => exact wf_update id u s r hWF h
    | error e => exact hWF
  | delete id =>
    rw [stepOp]
    cases h : delete_book id s with
    | ok r => exact wf_delete id s r hWF h
    | error e => exact hWF
  | getOne id => exact hWF
  | list g a => exact hWF

theorem wf_initial : WF initialState := by
  refine ⟨?_, ?_, ?_⟩
  · rw [KeysOk]; decide
  · rw [IsbnsOk, initialState]
    simp [seedBook1, seedBook2]
  · intro p hp
    rw [initialState] at hp
    rcases List.mem_cons.1 hp with rfl | hp'
    · decide
    · rcases List.mem_singleton.1 hp' with rfl
      decide

theorem reachable_wf (s : CatalogState) (h : Reachable s) : WF s := by
  induction h with
  | init => exact wf_initial
  | next s' op _ ih => exact wf_step op s' ih

/-! ## Handler shape lemmas -/

theorem create_book_success (b : Book) (s : CatalogState)
    (hisbn : ∀ p ∈ s.books_db, p.2.isbn ≠ some b.isbn) :
    create_book b s = .ok (201,
      ⟨"Book created successfully", ⟨s.next_book_id, b.model_dump⟩⟩,
      ⟨dictSet s.books_db s.next_book_id b.model_dump, s.next_book_id + 1⟩) := by
  have hc : ¬((s.books_db.any (fun p => p.2.isbn = some b.isbn)) = true) := by
    intro hc
    obtain ⟨p, hp, hpe⟩ := List.any_eq_true.1 hc
    exact hisbn p hp (by simpa using hpe)
  rw [create_book, if_neg hc]

theorem create_book_conflict (b : Book) (s : CatalogState) (q : Nat × StoredBook)
    (hq : q ∈ s.books_db) (hisbn : q.2.isbn = some b.isbn) :
    create_book b s =
      .error ⟨400, "Book with ISBN " ++ b.isbn ++ " already exists"⟩ := by
  have hc : (s.books_db.any (fun p => p.2.isbn = some b.isbn)) = true :=
    List.any_eq_true.2 ⟨q, hq, by simp [hisbn]⟩
  rw [create_book, if_pos hc]

theorem update_book_success (id : Nat) (u : BookUpdate) (s : CatalogState)
    (b : StoredBook) (hb : dictGet? s.books_db id = some b)
    (hnoc : ∀ v, u.isbn = some v → ∀ p ∈ s.books_db, p.1 ≠ id → p.2.isbn ≠ v) :
    update_book id u s = .ok (200,
      ⟨"Book updated successfully", ⟨id, applyUpdate b u⟩⟩,
      ⟨dictSet s.books_db id (applyUpdate b u), s.next_book_id⟩) := by
  cases hu : u.isbn with
  | none => simp only [update_book, hb, hu]
  | some v =>
    have hc : ¬((s.books_db.any (fun p => p.1 ≠ id ∧ p.2.isbn = v)) = true) := by
      intro hc
      obtain ⟨p, hp, hpe⟩ := List.any_eq_true.1 hc
      rw [decide_eq_true_eq] at hpe
      exact hnoc v hu p hp hpe.1 hpe.2
    simp only [update_book, hb, hu]
    rw [if_neg hc]

theorem update_book_conflict (id : Nat) (u : BookUpdate) (s : CatalogState)
    (b : StoredBook) (v : Option String)
    (hb : dictGet? s.books_db id = some b) (hu : u.isbn = some v)
    (hex : ∃ p ∈ s.books_db, p.1 ≠ id ∧ p.2.isbn = v) :
    update_book id u s =
      .error ⟨400, "ISBN " ++ pyStr v ++ " already exists for another book"⟩ := by
  obtain ⟨p, hp, hpk, hpi⟩ := hex
  have hc : (s.books_db.any (fun p => p.1 ≠ id ∧ p.2.isbn = v)) = true :=
    List.any_eq_true.2 ⟨p, hp, by simp [hpk, hpi]⟩
  simp only [update_book, hb, hu]
  rw [if_pos hc]

theorem update_book_notfound (id : Nat) (u : BookUpdate) (s : CatalogState)
    (hb : dictGet? s.books_db id = none) :
    update_book id u s =
      .error ⟨404, "Book with ID " ++ toString id ++ " not found"⟩ := by
  simp only [update_book, hb]

theorem stepOp_error_create (b : Book) (s : CatalogState) (e : HTTPError)
    (h : create_book b s = .error e) : stepOp (.create b) s = s := by
  simp only [stepOp, h]

theorem stepOp_error_update (id : Nat) (u : BookUpdate) (s : CatalogState)
    (e : HTTPError) (h : update_book id u s = .error e) :
    stepOp (.update id u) s = s := by
  simp only [stepOp, h]

theorem stepOp_error_delete (id : Nat) (s : CatalogState) (e : HTTPError)
    (h : delete_book id s = .error e) : stepOp (.delete id) s = s := by
  simp only [stepOp, h]

theorem counter_mono_step (op : Op) (s : CatalogState) :
    s.next_book_id ≤ (stepOp op s).next_book_id := by
  cases op with
  | create b =>
    rw [stepOp]
    cases h : create_book b s with
    | error e => exact Nat.le_refl _
    | ok r =>
      rw [create_book] at h
      by_cases hc : (s.books_db.any (fun p => p.2.isbn = some b.isbn)) = true
      · rw [if_pos hc] at h
        exact absurd h (by simp)
      · rw [if_neg hc] at h
        cases h
        exact Nat.le_succ _
  | update id u =>
    rw [stepOp]
    cases h : update_book id u s with
    | error e => exact Nat.le_refl _
    | ok r =>
      cases hb : dictGet? s.books_db id with
      | none =>
        rw [update_book_notfound id u s hb] at h
        exact absurd h (by simp)
      | some bdata =>
        cases hu : u.isbn with
        | some v =>
          by_cases hc : (s.books_db.any (fun p => p.1 ≠ id ∧ p.2.isbn = v)) = true
          · simp only [update_book, hb, hu] at h
            rw [if_pos hc] at h
            exact absurd h (by simp)
          · simp only [update_book, hb, hu] at h
            rw [if_neg hc] at h
            cases h
            exact Nat.le_refl _
        | none =>
          simp only [update_book, hb, hu] at h
          cases h
          exact Nat.le_refl _
  | delete id =>
    rw [stepOp]
    cases h : delete_book id s with
    | error e => exact Nat.le_refl _
    | ok r =>
      cases hb : dictGet? s.books_db id with
      | none =>
        rw [delete_book, hb] at h
        exact absurd h (by simp)
      | some bdata =>
        rw [delete_book, hb] at h
        cases h
        exact Nat.le_refl _
  | getOne id => exact Nat.le_refl _
  | list g a => exact Nat.le_refl _

theorem counter_mono_reachableFrom (s s' : CatalogState)
    (h : ReachableFrom s s') : s.next_book_id ≤ s'.next_book_id := by
  induction h with
  | refl => exact Nat.le_refl _
  | next t op _ ih => exact Nat.le_trans ih (counter_mono_step op t)

/-! ## The claims -/

/-- C1: for every valid payload whose isbn is held by no stored book,
`create_book` succeeds with HTTP 201, assigns the current counter value
as the new id, and a subsequent `get_book` of that id returns a record
with exactly the payload's title, author, isbn, publication_year, genre
and available fields. -/
theorem create_then_get_roundtrip (b : Book) (s : CatalogState)
    (hisbn : ∀ p ∈ s.books_db, p.2.isbn ≠ some b.isbn) :
    ∃ s', create_book b s = .ok (201,
        ⟨"Book created successfully", ⟨s.next_book_id, b.model_dump⟩⟩, s') ∧
      get_book s.next_book_id s' = .ok (200, ⟨s.next_book_id,
        ⟨some b.title, some b.author, some b.isbn, some b.publication_year,
         some b.genre, some b.available⟩⟩) := by
  refine ⟨_, create_book_success b s hisbn, ?_⟩
  simp only [get_book, dictGet?_dictSet_self]
  rfl

theorem create_then_get_roundtrip_witness :
    ∃ s', create_book sampleBook initialState = .ok (201,
        ⟨"Book created successfully",
         ⟨initialState.next_book_id, sampleBook.model_dump⟩⟩, s') ∧
      get_book initialState.next_book_id s' = .ok (200,
        ⟨initialState.next_book_id,
         ⟨some sampleBook.title, some sampleBook.author, some sampleBook.isbn,
          some sampleBook.publication_year, some sampleBook.genre,
          some sampleBook.available⟩⟩) :=
  create_then_get_roundtrip sampleBook initialState (by decide)

/-- C2: creating a payload whose isbn some stored book already holds
fails with HTTP 400 naming the isbn, and the state (catalog mapping and
id counter) is unchanged. -/
theorem create_duplicate_isbn_rejected (b : Book) (s : CatalogState)
    (q : Nat × StoredBook) (hq : q ∈ s.books_db)
    (hisbn : q.2.isbn = some b.isbn) :
    create_book b s =
      .error ⟨400, "Book with ISBN " ++ b.isbn ++ " already exists"⟩ ∧
    stepOp (.create b) s = s := by
  have h1 := create_book_conflict b s q hq hisbn
  exact ⟨h1, stepOp_error_create b s _ h1⟩

theorem create_duplicate_isbn_rejected_witness :
    create_book dupBook initialState =
      .error ⟨400, "Book with ISBN " ++ dupBook.isbn ++ " already exists"⟩ ∧
    stepOp (.create dupBook) initialState = initialState :=
  create_duplicate_isbn_rejected dupBook initialState (1, seedBook1)
    (by decide) (by decide)

/-- C3: in every state reachable from the seeded initial state by any
sequence of requests, no two entries of the catalog share an isbn value. -/
theorem no_two_books_share_isbn (s : CatalogState) (h : Reachable s) :
    List.Pairwise (fun p q => p.2.isbn ≠ q.2.isbn) s.books_db :=
  (reachable_wf s h).2.1

theorem no_two_books_share_isbn_witness :
    List.Pairwise (fun p q => p.2.isbn ≠ q.2.isbn) initialState.books_db :=
  no_two_books_share_isbn initialState Reachable.init

/-- C4: a successful update of an existing id applies each supplied
field, leaves each unsupplied field of that record unchanged, leaves
every other record unchanged, keeps the counter, and returns the full
updated record including its id. -/
theorem update_applies_exactly_supplied_fields (id : Nat) (u : BookUpdate)
    (s : CatalogState) (b : StoredBook)
    (hb : dictGet? s.books_db id = some b)
    (hnoc : ∀ v, u.isbn = some v → ∀ p ∈ s.books_db, p.1 ≠ id → p.2.isbn ≠ v) :
    ∃ r s', update_book id u s = .ok (200,
        ⟨"Book updated successfully", ⟨id, r⟩⟩, s') ∧
      (∀ v, u.title = some v → r.title = v) ∧
      (u.title = none → r.title = b.title) ∧
      (∀ v, u.author = some v → r.author = v) ∧
      (u.author = none → r.author = b.author) ∧
      (∀ v, u.isbn = some v → r.isbn = v) ∧
      (u.isbn = none → r.isbn = b.isbn) ∧
      (∀ v, u.publication_year = some v → r.publication_year = v) ∧
      (u.publication_year = none → r.publication_year = b.publication_year) ∧
      (∀ v, u.genre = some v → r.genre = v) ∧
      (u.genre = none → r.genre = b.genre) ∧
      (∀ v, u.available = some v → r.available = v) ∧
      (u.available = none → r.available = b.available) ∧
      dictGet? s'.books_db id = some r ∧
      (∀ k, k ≠ id → dictGet? s'.books_db k = dictGet? s.books_db k) ∧
      s'.next_book_id = s.next_book_id := by
  refine ⟨applyUpdate b u, _, update_book_success id u s b hb hnoc,
    fun v hv => by simp [applyUpdate, hv],
    fun hn => by simp [applyUpdate, hn],
    fun v hv => by simp [applyUpdate, hv],
    fun hn => by simp [applyUpdate, hn],
    fun v hv => by simp [applyUpdate, hv],
    fun hn => by simp [applyUpdate, hn],
    fun v hv => by simp [applyUpdate, hv],
    fun hn => by simp [applyUpdate, hn],
    fun v hv => by simp [applyUpdate, hv],
    fun hn => by simp [applyUpdate, hn],
    fun v hv => by simp [applyUpdate, hv],
    fun hn => by simp [applyUpdate, hn],
    dictGet?_dictSet_self _ _ _,
    fun k hk => dictGet?_dictSet_other _ _ _ _ hk,
    rfl⟩

theorem update_applies_exactly_supplied_fields_witness :
    ∃ r s', update_book 1 availOnlyUpdate initialState = .ok (200,
        ⟨"Book updated successfully", ⟨1, r⟩⟩, s') ∧
      (∀ v, availOnlyUpdate.title = some v → r.title = v) ∧
      (availOnlyUpdate.title = none → r.title = seedBook1.title) ∧
      (∀ v, availOnlyUpdate.author = some v → r.author = v) ∧
      (availOnlyUpdate.author = none → r.author = seedBook1.author) ∧
      (∀ v, availOnlyUpdate.isbn = some v → r.isbn = v) ∧
      (availOnlyUpdate.isbn = none → r.isbn = seedBook1.isbn) ∧
      (∀ v, availOnlyUpdate.publication_year = some v →
        r.publication_year = v) ∧
      (availOnlyUpdate.publication_year = none →
        r.publication_year = seedBook1.publication_year) ∧
      (∀ v, availOnlyUpdate.genre = some v → r.genre = v) ∧
      (availOnlyUpdate.genre = none → r.genre = seedBook1.genre) ∧
      (∀ v, availOnlyUpdate.available = some v → r.available = v) ∧
      (availOnlyUpdate.available = none → r.available = seedBook1.available) ∧
      dictGet? s'.books_db 1 = some r ∧
      (∀ k, k ≠ 1 → dictGet? s'.books_db k = dictGet? initialState.books_db k) ∧
      s'.next_book_id = initialState.next_book_id :=
  update_applies_exactly_supplied_fields 1 availOnlyUpdate initialState
    seedBook1 rfl (fun _v hv => Option.noConfusion hv)

/-- C5: for an existing id, an update fails with HTTP 400 precisely when
isbn is among the supplied fields and that isbn value is held by a
different existing id; such a failure carries a detail naming the isbn;
re-supplying the record's own isbn succeeds (the catalog never holds a
duplicate isbn); and on any failure the state is unchanged. -/
theorem update_conflict_characterization (id : Nat) (u : BookUpdate)
    (s : CatalogState) (b : StoredBook)
    (hI : IsbnsOk s.books_db)
    (hb : dictGet? s.books_db id = some b) :
    ((∃ e, update_book id u s = .error e ∧ e.status_code = 400) ↔
      (∃ v, u.isbn = some v ∧ ∃ p ∈ s.books_db, p.1 ≠ id ∧ p.2.isbn = v)) ∧
    (∀ v, u.isbn = some v →
      (∃ p ∈ s.books_db, p.1 ≠ id ∧ p.2.isbn = v) →
      update_book id u s =
        .error ⟨400, "ISBN " ++ pyStr v ++ " already exists for another book"⟩) ∧
    (u.isbn = some b.isbn → ∃ r, update_book id u s = .ok r) ∧
    (∀ e, update_book id u s = .error e → stepOp (.update id u) s = s) := by
  refine ⟨⟨?_, ?_⟩, ?_, ?_, ?_⟩
  · rintro ⟨e, he, _⟩
    cases hu : u.isbn with
    | none =>
      have hs := update_book_success id u s b hb
        (fun _v hv => absurd (hu ▸ hv) (by simp))
      rw [hs] at he
      exact absurd he (by simp)
    | some v =>
      by_cases hex : ∃ p ∈ s.books_db, p.1 ≠ id ∧ p.2.isbn = v
      · exact ⟨v, hu ▸ rfl, hex⟩
      · have hnoc : ∀ w, u.isbn = some w →
            ∀ p ∈ s.books_db, p.1 ≠ id → p.2.isbn ≠ w := by
          intro w hw p hp hpk hpi
          have hwv : w = v := Option.some.inj (hw ▸ hu)
          exact hex ⟨p, hp, hpk, hwv ▸ hpi⟩
        rw [update_book_success id u s b hb hnoc] at he
        exact absurd he (by simp)
  · rintro ⟨v, hv, hex⟩
    exact ⟨_, update_book_conflict id u s b v hb hv hex, rfl⟩
  · exact fun v hv hex => update_book_conflict id u s b v hb hv hex
  · intro hown
    refine ⟨_, update_book_success id u s b hb ?_⟩
    intro w hw p hp hpk
    have hwb : w = b.isbn := Option.some.inj (hw ▸ hown)
    rw [hwb]
    exact isbn_distinct_of_isbnsOk _ hI id b hb p hp hpk
  · exact fun e he => stepOp_error_update id u s e he

theorem update_conflict_characterization_witness :
    ((∃ e, update_book 1 ⟨none, none, some seedBook2.isbn, none, none, none⟩
        initialState = .error e ∧ e.status_code = 400) ↔
      (∃ v, (⟨none, none, some seedBook2.isbn, none, none, none⟩ :
          BookUpdate).isbn = some v ∧
        ∃ p ∈ initialState.books_db, p.1 ≠ 1 ∧ p.2.isbn = v)) ∧
    (∀ v, (⟨none, none, some seedBook2.isbn, none, none, none⟩ :
        BookUpdate).isbn = some v →
      (∃ p ∈ initialState.books_db, p.1 ≠ 1 ∧ p.2.isbn = v) →
      update_book 1 ⟨none, none, some seedBook2.isbn, none, none, none⟩
        initialState =
        .error ⟨400, "ISBN " ++ pyStr v ++ " already exists for another book"⟩) ∧
    ((⟨none, none, some seedBook2.isbn, none, none, none⟩ :
        BookUpdate).isbn = some seedBook1.isbn →
      ∃ r, update_book 1 ⟨none, none, some seedBook2.isbn, none, none, none⟩
        initialState = .ok r) ∧
    (∀ e, update_book 1 ⟨none, none, some seedBook2.isbn, none, none, none⟩
        initialState = .error e →
      stepOp (.update 1 ⟨none, none, some seedBook2.isbn, none, none, none⟩)
        initialState = initialState) :=
  update_conflict_characterization 1
    ⟨none, none, some seedBook2.isbn, none, none, none⟩
    initialState seedBook1 (by decide) rfl

/-- C6: deleting a present id succeeds with HTTP 200, removes exactly
that record, returns a copy of it including its id, keeps the counter,
makes a subsequent get of that id fail with 404, and shrinks the catalog
by one; deleting or getting an absent id fails with 404 naming the id and
leaves the state unchanged. -/
theorem delete_then_get (id : Nat) (s : CatalogState)
    (hK : KeysOk s.books_db) :
    (∀ b, dictGet? s.books_db id = some b →
      ∃ s', delete_book id s = .ok (200,
          ⟨"Book deleted successfully", ⟨id, b⟩⟩, s') ∧
        dictGet? s'.books_db id = none ∧
        (∀ k, k ≠ id → dictGet? s'.books_db k = dictGet? s.books_db k) ∧
        get_book id s' =
          .error ⟨404, "Book with ID " ++ toString id ++ " not found"⟩ ∧
        s'.books_db.length + 1 = s.books_db.length ∧
        s'.next_book_id = s.next_book_id) ∧
    (dictGet? s.books_db id = none →
      delete_book id s =
        .error ⟨404, "Book with ID " ++ toString id ++ " not found"⟩ ∧
      get_book id s =
        .error ⟨404, "Book with ID " ++ toString id ++ " not found"⟩ ∧
      stepOp (.delete id) s = s) := by
  constructor
  · intro b hb
    refine ⟨⟨dictDel s.books_db id, s.next_book_id⟩, ?_, ?_, ?_, ?_, ?_, rfl⟩
    · simp only [delete_book, hb]
    · exact dictGet?_dictDel_self _ _ hK
    · exact fun k hk => dictGet?_dictDel_other _ _ _ hk
    · simp only [get_book, dictGet?_dictDel_self _ _ hK]
    · exact dictDel_length _ _ b hb
  · intro hb
    have h1 : delete_book id s =
        .error ⟨404, "Book with ID " ++ toString id ++ " not found"⟩ := by
      simp only [delete_book, hb]
    refine ⟨h1, ?_, stepOp_error_delete id s _ h1⟩
    simp only [get_book, hb]

theorem delete_then_get_witness :
    (∃ s', delete_book 1 initialState = .ok (200,
        ⟨"Book deleted successfully", ⟨1, seedBook1⟩⟩, s') ∧
      dictGet? s'.books_db 1 = none ∧
      (∀ k, k ≠ 1 → dictGet? s'.books_db k = dictGet? initialState.books_db k) ∧
      get_book 1 s' =
        .error ⟨404, "Book with ID " ++ toString (1 : Nat) ++ " not found"⟩ ∧
      s'.books_db.length + 1 = initialState.books_db.length ∧
      s'.next_book_id = initialState.next_book_id) ∧
    (delete_book 99 initialState =
        .error ⟨404, "Book with ID " ++ toString (99 : Nat) ++ " not found"⟩ ∧
      get_book 99 initialState =
        .error ⟨404, "Book with ID " ++ toString (99 : Nat) ++ " not found"⟩ ∧
      stepOp (.delete 99) initialState = initialState) :=
  ⟨(delete_then_get 1 initialState (by decide)).1 seedBook1 rfl,
   (delete_then_get 99 initialState (by decide)).2 rfl⟩

/-- C10: for an existing id, an update distinguishes absent fields from
fields explicitly supplied as null: absent fields stay unchanged while a
field supplied as null passes validation, is applied, and overwrites the
stored slot with null — so stored records can hold null in fields the
`Book` model declares as string, integer or boolean. -/
theorem update_null_vs_absent (id : Nat) (u : BookUpdate) (s : CatalogState)
    (b : StoredBook) (hb : dictGet? s.books_db id = some b)
    (hnoc : ∀ v, u.isbn = some v → ∀ p ∈ s.books_db, p.1 ≠ id → p.2.isbn ≠ v) :
    ∃ r s', update_book id u s = .ok (200,
        ⟨"Book updated successfully", ⟨id, r⟩⟩, s') ∧
      dictGet? s'.books_db id = some r ∧
      (u.title = some none → r.title = none) ∧
      (u.title = none → r.title = b.title) ∧
      (u.author = some none → r.author = none) ∧
      (u.author = none → r.author = b.author) ∧
      (u.isbn = some none → r.isbn = none) ∧
      (u.isbn = none → r.isbn = b.isbn) ∧
      (u.publication_year = some none → r.publication_year = none) ∧
      (u.publication_year = none → r.publication_year = b.publication_year) ∧
      (u.genre = some none → r.genre = none) ∧
      (u.genre = none → r.genre = b.genre) ∧
      (u.available = some none → r.available = none) ∧
      (u.available = none → r.available = b.available) := by
  refine ⟨applyUpdate b u, _, update_book_success id u s b hb hnoc,
    dictGet?_dictSet_self _ _ _,
    fun hv => by simp [applyUpdate, hv],
    fun hn => by simp [applyUpdate, hn],
    fun hv => by simp [applyUpdate, hv],
    fun hn => by simp [applyUpdate, hn],
    fun hv => by simp [applyUpdate, hv],
    fun hn => by simp [applyUpdate, hn],
    fun hv => by simp [applyUpdate, hv],
    fun hn => by simp [applyUpdate, hn],
    fun hv => by simp [applyUpdate, hv],
    fun hn => by simp [applyUpdate, hn],
    fun hv => by simp [applyUpdate, hv],
    fun hn => by simp [applyUpdate, hn]⟩

theorem update_null_vs_absent_witness :
    ∃ r s', update_book 1 nullingUpdate initialState = .ok (200,
        ⟨"Book updated successfully", ⟨1, r⟩⟩, s') ∧
      dictGet? s'.books_db 1 = some r ∧
      (nullingUpdate.title = some none → r.title = none) ∧
      (nullingUpdate.title = none → r.title = seedBook1.title) ∧
      (nullingUpdate.author = some none → r.author = none) ∧
      (nullingUpdate.author = none → r.author = seedBook1.author) ∧
      (nullingUpdate.isbn = some none → r.isbn = none) ∧
      (nullingUpdate.isbn = none → r.isbn = seedBook1.isbn) ∧
      (nullingUpdate.publication_year = some none →
        r.publication_year = none) ∧
      (nullingUpdate.publication_year = none →
        r.publication_year = seedBook1.publication_year) ∧
      (nullingUpdate.genre = some none → r.genre = none) ∧
      (nullingUpdate.genre = none → r.genre = seedBook1.genre) ∧
      (nullingUpdate.available = some none → r.available = none) ∧
      (nullingUpdate.available = none → r.available = seedBook1.available) :=
  update_null_vs_absent 1 nullingUpdate initialState seedBook1 rfl
    (fun _v hv => Option.noConfusion hv)

/-- C9: on the unmodified seeded catalog, listing with genre "Fiction"
returns exactly the book with id 1 (whose title is
"To Kill a Mockingbird"), and listing with available = true returns
exactly the two seed books. -/
theorem seeded_catalog_filters :
    get_all_books (some "Fiction") none initialState =
      .ok (200, .listing 1 [⟨1, seedBook1⟩]) ∧
    get_all_books none (some true) initialState =
      .ok (200, .listing 2 [⟨1, seedBook1⟩, ⟨2, seedBook2⟩]) ∧
    seedBook1.title = some "To Kill a Mockingbird" :=
  ⟨rfl, rfl, rfl⟩

/-- C8: the id counter is seeded at 3, above the two pre-loaded ids; no
request ever decreases it; every reachable state keeps all stored ids
below the counter; and so every id returned by a successful create is
strictly greater than every id present at any earlier point of the
trace — deleted ids are never reassigned within a process lifetime. -/
theorem ids_never_reused :
    initialState.next_book_id = 3 ∧
    (∀ p ∈ initialState.books_db, p.1 < initialState.next_book_id) ∧
    (∀ s op, s.next_book_id ≤ (stepOp op s).next_book_id) ∧
    (∀ s, Reachable s → CounterOk s) ∧
    (∀ s s', Reachable s → ReachableFrom s s' →
      ∀ p ∈ s.books_db, ∀ b r, create_book b s' = .ok r →
        p.1 < r.2.1.book.id) := by
  refine ⟨rfl, by decide, fun s op => counter_mono_step op s,
    fun s hs => (reachable_wf s hs).2.2, ?_⟩
  intro s s' hs hss' p hp b r hcr
  have hid : r.2.1.book.id = s'.next_book_id := by
    rw [create_book] at hcr
    by_cases hc : (s'.books_db.any (fun q => q.2.isbn = some b.isbn)) = true
    · rw [if_pos hc] at hcr
      exact absurd hcr (by simp)
    · rw [if_neg hc] at hcr
      cases hcr
      rfl
  have h1 : p.1 < s.next_book_id := (reachable_wf s hs).2.2 p hp
  have h2 := counter_mono_reachableFrom s s' hss'
  rw [hid]
  exact Nat.lt_of_lt_of_le h1 h2

theorem ids_never_reused_witness :
    initialState.next_book_id = 3 ∧
    (1, seedBook1).1 < (201,
      (⟨"Book created successfully",
        ⟨3, sampleBook.model_dump⟩⟩ : MessageBook),
      (⟨dictSet initialState.books_db 3 sampleBook.model_dump, 4⟩ :
        CatalogState)).2.1.book.id :=
  ⟨ids_never_reused.1,
   ids_never_reused.2.2.2.2 initialState initialState Reachable.init
     (ReachableFrom.refl initialState) (1, seedBook1) (by decide) sampleBook
     (201, ⟨"Book created successfully", ⟨3, sampleBook.model_dump⟩⟩,
      ⟨dictSet initialState.books_db 3 sampleBook.model_dump, 4⟩) rfl⟩

end BookCatalog
